import Mathlib

/-
Formal model of the Google Maps scraper (src/main.py).

Python strings are modelled as `List Char`; Python numeric values that the
program only parses and stores (never rounds) are modelled as `ℚ`/`ℤ`;
fallible Python expressions are modelled as `Except PyErr`.  The browser
capability boundary (Playwright) is modelled abstractly, following the
spec's capability interface: a described UI region is an `Option` of its
observable content.
-/

/-- ASCII whitespace, the characters stripped by Python `str.strip()` /
`str.split()` with no separator (the model covers the ASCII subset). -/
def isWS (c : Char) : Bool :=
  c = ' ' || c = '\t' || c = '\n' || c = '\r' || c = '\x0b' || c = '\x0c'

/-- Model of Python `str.strip()` (ASCII whitespace). -/
def pyStrip (s : List Char) : List Char :=
  ((s.dropWhile isWS).reverse.dropWhile isWS).reverse

/-- Numeric value of a list of decimal digit characters. -/
def digitsVal (cs : List Char) : Nat :=
  cs.foldl (fun a c => 10 * a + (c.toNat - 48)) 0

/-- Consume an optional leading sign; returns (isNegative, rest). -/
def parseSign : List Char → Bool × List Char
  | '+' :: cs => (false, cs)
  | '-' :: cs => (true, cs)
  | cs => (false, cs)

/-- Model of Python `float()` on finite decimal literals
(optional surrounding whitespace, optional sign, digits with optional
decimal point, optional decimal exponent).  The exact value is kept as a
rational, which is faithful here because the program never does float
arithmetic: it only parses and stores the number.  Digit-group
underscores and the `inf`/`nan` spellings are outside the model. -/
def pyFloat (s : List Char) : Option ℚ :=
  let cs := pyStrip s
  let (neg, cs) := parseSign cs
  let ip := cs.takeWhile Char.isDigit
  let cs := cs.dropWhile Char.isDigit
  let (fp, cs) :=
    match cs with
    | '.' :: rest => (rest.takeWhile Char.isDigit, rest.dropWhile Char.isDigit)
    | _ => ([], cs)
  if ip = [] ∧ fp = [] then none
  else
    let mantNat : Nat := digitsVal ip * 10 ^ fp.length + digitsVal fp
    let mant : Int := if neg then -(mantNat : Int) else (mantNat : Int)
    match cs with
    | [] => some (mkRat mant (10 ^ fp.length))
    | 'e' :: rest | 'E' :: rest =>
      let (eneg, r2) := parseSign rest
      let ed := r2.takeWhile Char.isDigit
      let r3 := r2.dropWhile Char.isDigit
      if ed = [] ∨ r3 ≠ [] then none
      else
        let e : Int := (if eneg then -(digitsVal ed : Int) else (digitsVal ed : Int)) - fp.length
        some (if 0 ≤ e then mkRat (mant * 10 ^ e.toNat) 1
              else mkRat mant (10 ^ (-e).toNat))
    | _ => none

/-- Model of Python `int()` on decimal literals (optional surrounding
whitespace, optional sign, digits; underscores outside the model). -/
def pyInt (s : List Char) : Option ℤ :=
  let cs := pyStrip s
  let (neg, cs) := parseSign cs
  if cs ≠ [] ∧ cs.all Char.isDigit then
    some (if neg then -(digitsVal cs : Int) else (digitsVal cs : Int))
  else none

/-- Worker for `pySplitWS`: `cur` is the reversed current token. -/
def pySplitWSAux (cur : List Char) : List Char → List (List Char)
  | [] => if cur = [] then [] else [cur.reverse]
  | c :: cs =>
    if isWS c then
      if cur = [] then pySplitWSAux [] cs else cur.reverse :: pySplitWSAux [] cs
    else pySplitWSAux (c :: cur) cs

/-- Model of Python `str.split()` with no separator: split on runs of
whitespace, producing no empty tokens. -/
def pySplitWS (s : List Char) : List (List Char) :=
  pySplitWSAux [] s

/-- Model of Python `str.split(sep)` for a one-character separator `sep`. -/
def splitChar (sep : Char) : List Char → List (List Char)
  | [] => [[]]
  | c :: cs =>
    if c = sep then [] :: splitChar sep cs
    else
      match splitChar sep cs with
      | [] => [[c]]
      | h :: t => (c :: h) :: t

/-- Model of Python `str.split("/@")`: split on each (left-to-right,
non-overlapping) occurrence of the two-character separator `/@`. -/
def splitMarker : List Char → List (List Char)
  | [] => [[]]
  | [c] => [[c]]
  | c :: d :: cs =>
    if c = '/' ∧ d = '@' then [] :: splitMarker cs
    else
      match splitMarker (d :: cs) with
      | [] => [[c]]
      | h :: t => (c :: h) :: t

/-- Whether the two-character marker `/@` occurs in the string. -/
def hasMarker : List Char → Bool
  | [] => false
  | [_] => false
  | c :: d :: cs => (c = '/' && d = '@') || hasMarker (d :: cs)

/-- Model of Python `str.replace(",", ".")`. -/
def commaToDot (s : List Char) : List Char :=
  s.map (fun c => if c = ',' then '.' else c)

/-- Model of Python `str.replace(",", "")`. -/
def stripCommas (s : List Char) : List Char :=
  s.filter (fun c => !(c = ','))

/-- Model of the Python expression `x or ""` for `x : Optional[str]`:
`None` and the empty string are falsy. -/
def pyOrStr : Option (List Char) → List Char
  | none => []
  | some s => if s = [] then [] else s

/-- Model of the Python slice `l[:n]` for an `int` bound `n`:
a nonnegative bound keeps the first `n` elements, a negative bound drops
the last `|n|` elements. -/
def pySlice {α : Type} (n : ℤ) (l : List α) : List α :=
  if 0 ≤ n then l.take n.toNat else l.take (l.length - n.natAbs)

/-- The kinds of Python exception the modelled code can raise. -/
inductive PyErr : Type
  | valueError
  | indexError
  | attributeError
  | timeoutError
deriving DecidableEq

instance {ε α : Type} [DecidableEq ε] [DecidableEq α] : DecidableEq (Except ε α) := fun x y =>
  match x, y with
  | .ok a, .ok b => if h : a = b then isTrue (by rw [h]) else isFalse (by simp [h])
  | .error a, .error b => if h : a = b then isTrue (by rw [h]) else isFalse (by simp [h])
  | .ok _, .error _ => isFalse (by simp)
  | .error _, .ok _ => isFalse (by simp)

/-- The coordinate-bearing segment of a URL, per `main.py` line 62:
`url.split('/@')[-1].split('/')[0]` — the text after the last occurrence
of `/@` (the whole URL when the marker is absent), up to the next `/`. -/
def coordSegment (url : List Char) : List Char :=
  (splitChar '/' ((splitMarker url).getLastD [])).headD []

/-- `extract_coordinates_from_url` (`main.py` lines 60-64): split the
coordinate segment on commas and parse the first two tokens as floats,
in Python's evaluation order (`float(parts[0])` first, then the `[1]`
index, then `float(parts[1])`). -/
def extract_coordinates_from_url (url : List Char) : Except PyErr (ℚ × ℚ) :=
  match pyFloat ((splitChar ',' (coordSegment url)).headD []) with
  | none => .error .valueError
  | some lat =>
    match (splitChar ',' (coordSegment url))[1]? with
    | none => .error .indexError
    | some t1 =>
      match pyFloat t1 with
      | none => .error .valueError
      | some lng => .ok (lat, lng)

/-- The `Business` dataclass (`main.py` lines 13-23). -/
structure Business : Type where
  name : List Char
  address : List Char
  website : List Char
  phone_number : List Char
  reviews_count : Option ℤ
  reviews_average : Option ℚ
  latitude : Option ℚ
  longitude : Option ℚ
deriving DecidableEq

/-- Observable state of the detail view reached by clicking one listing,
abstracting the browser capability: each described UI region is `none`
when absent, and carries its observable content when present.
`reviewsSpan` / `ratingImg` are `Option (Option _)`: the outer level is
the `count() > 0` existence test, the inner level the text/attribute
read, which Playwright reports as an optional string. -/
structure ListingView : Type where
  ariaLabel : Option (List Char)
  addressText : Option (List Char)
  websiteText : Option (List Char)
  phoneText : Option (List Char)
  reviewsSpan : Option (Option (List Char))
  ratingImg : Option (Option (List Char))
  url : List Char
deriving DecidableEq

/-- The `reviews_count` expression (`main.py` line 139): when the "more
reviews" region exists, read its text (`None` text raises, as calling
`.split()` on `None` does), take the leading whitespace token, strip
commas, parse as `int`; when the region is absent the value is `None`. -/
def extractReviewsCount : Option (Option (List Char)) → Except PyErr (Option ℤ)
  | none => .ok none
  | some none => .error .attributeError
  | some (some t) =>
    match pySplitWS t with
    | [] => .error .indexError
    | tok :: _ =>
      match pyInt (stripCommas tok) with
      | some n => .ok (some n)
      | none => .error .valueError

/-- The `reviews_average` expression (`main.py` line 140): when the
rating-image region exists, read its `aria-label` (`None` raises), take
the leading whitespace token, replace commas by periods, parse as
`float`; when the region is absent the value is `None`. -/
def extractReviewsAverage : Option (Option (List Char)) → Except PyErr (Option ℚ)
  | none => .ok none
  | some none => .error .attributeError
  | some (some lbl) =>
    match pySplitWS lbl with
    | [] => .error .indexError
    | tok :: _ =>
      match pyFloat (commaToDot tok) with
      | some q => .ok (some q)
      | none => .error .valueError

/-- Building one `Business` from a loaded detail view (`main.py` lines
134-145): the four string fields are total (`x or ""`); the review
fields may raise; the `Business` is created with `latitude`/`longitude`
`None` and they are then assigned together from one URL parse. -/
def scrapeListing (v : ListingView) : Except PyErr Business := do
  let rc ← extractReviewsCount v.reviewsSpan
  let ra ← extractReviewsAverage v.ratingImg
  let b : Business :=
    { name := pyOrStr v.ariaLabel
      address := pyOrStr v.addressText
      website := pyOrStr v.websiteText
      phone_number := pyOrStr v.phoneText
      reviews_count := rc
      reviews_average := ra
      latitude := none
      longitude := none }
  let c ← extract_coordinates_from_url v.url
  pure { b with latitude := some c.1, longitude := some c.2 }

/-- The per-listing loop of `main.py` lines 129-148: each listing is
clicked (`click i` models `listing.click()` plus the settling wait,
yielding the loaded detail view or an error) and scraped; any `PyErr`
raised for one listing is caught and that listing is skipped. -/
def collectBusinesses (click : ℕ → Except PyErr ListingView) : List ℕ → List Business
  | [] => []
  | i :: rest =>
    match (click i).bind scrapeListing with
    | .ok b => b :: collectBusinesses click rest
    | .error _ => collectBusinesses click rest

/-- The scroll/discovery loop of `main.py` lines 107-124.  `counts` is
the sequence of values of `locator(...).count()` observed after each
scroll; enumerating the matching entries at count `c` yields the handles
`0, …, c-1` and `parent` models `listing.locator("xpath=..")`.  Returns
`none` when the observation sequence is exhausted without terminating
(the loop would keep scrolling forever). -/
def scrapeLoop (parent : ℕ → ℕ) (total : ℤ) : List ℕ → ℕ → Option (List ℕ)
  | [], _ => none
  | count :: rest, previously_counted =>
    if total ≤ (count : ℤ) then
      some ((pySlice total (List.range count)).map parent)
    else if count = previously_counted then
      some (List.range count)
    else
      scrapeLoop parent total rest count

/-- Everything one query's processing depends on (`main.py` lines
95-152): `setup` models the search-box fill, Enter press and the
`page.hover` over the first result (which raises when it times out);
`counts`, `parent` and `total` feed the discovery loop; `click` the
per-listing processing; `save` the two output writes. -/
structure QueryRun : Type where
  setup : Except PyErr Unit
  parent : ℕ → ℕ
  total : ℤ
  counts : List ℕ
  click : ℕ → Except PyErr ListingView
  save : Except PyErr Unit

/-- The body of the per-query loop for one query: `none` when the
discovery loop never terminates, otherwise the uncaught error or the
saved record batch.  There is no `try`/`except` at this level in the
source. -/
def runQuery (r : QueryRun) : Option (Except PyErr (List Business)) :=
  match r.setup with
  | .error e => some (.error e)
  | .ok _ =>
    match scrapeLoop r.parent r.total r.counts 0 with
    | none => none
    | some listings =>
      let batch := collectBusinesses r.click listings
      match r.save with
      | .error e => some (.error e)
      | .ok _ => some (.ok batch)

/-- Outcome of the whole query loop: the batches saved for a prefix of
the queries, and whether the run finished, aborted on an uncaught
exception, or hung in a non-terminating discovery loop. -/
inductive RunOutcome : Type
  | finished (batches : List (List Business))
  | aborted (e : PyErr) (batches : List (List Business))
  | hung (batches : List (List Business))
deriving DecidableEq

/-- The `for search_for in search_list` loop (`main.py` lines 95-152):
queries are processed strictly in order and an uncaught failure in one
query's processing ends the loop, leaving the remaining queries
unprocessed. -/
def runQueries (spec : ℕ → QueryRun) : List ℕ → RunOutcome
  | [] => .finished []
  | q :: rest =>
    match runQuery (spec q) with
    | none => .hung []
    | some (.error e) => .aborted e []
    | some (.ok batch) =>
      match runQueries spec rest with
      | .finished bs => .finished (batch :: bs)
      | .aborted e bs => .aborted e (batch :: bs)
      | .hung bs => .hung (batch :: bs)

/-- Python truthiness of `Optional[str]`: `None` and `""` are falsy. -/
def pyTruthyStr : Option (List Char) → Bool
  | none => false
  | some s => s ≠ []

/-- Python truthiness of `Optional[int]`: `None` and `0` are falsy. -/
def pyTruthyInt : Option ℤ → Bool
  | none => false
  | some n => n ≠ 0

/-- `total = args.total if args.total else 1_000_000` (`main.py` line
74): the default is substituted whenever the supplied value is falsy,
i.e. also when `--total 0` was explicitly passed. -/
def effectiveTotal (totalArg : Option ℤ) : ℤ :=
  if pyTruthyInt totalArg then totalArg.getD 0 else 1000000

/-- The message printed when no query source is available
(`main.py` line 84). -/
def mainErrorMsg : List Char :=
  "Error occurred: You must either pass the -s search argument, or add searches to input.txt".data

/-- How the input phase of `main` ends: either `sys.exit` with a printed
message and an exit status, before any browser work, or entry into the
scraping phase with the resolved query list and target. -/
inductive StartupResult : Type
  | exited (msg : List Char) (code : ℕ)
  | scrape (search_list : List (List Char)) (total : ℤ)
deriving DecidableEq

/-- The input phase of `main` (`main.py` lines 68-85).  `searchArg` and
`totalArg` are the `-s`/`-t` arguments; `inputFile` is `none` when
`input.txt` does not exist and otherwise carries its `readlines()`
result.  `sys.exit()` is called with no argument, which exits with
status 0. -/
def startup (searchArg : Option (List Char)) (totalArg : Option ℤ)
    (inputFile : Option (List (List Char))) : StartupResult :=
  let search_list : List (List Char) :=
    if pyTruthyStr searchArg then [searchArg.getD []] else []
  let total := effectiveTotal totalArg
  let search_list :=
    if search_list = [] then
      match inputFile with
      | some lines => lines
      | none => search_list
    else search_list
  if search_list = [] then .exited mainErrorMsg 0
  else .scrape search_list total

/-- The exit status of a startup outcome, when it exited. -/
def exitCode : StartupResult → Option ℕ
  | .exited _ c => some c
  | .scrape _ _ => none

/-- A coordinate token containing neither a comma nor a path separator
(any decimal float literal without surrounding text qualifies). -/
def cleanTok (t : List Char) : Bool :=
  t.all (fun c => !(c = ',') && !(c = '/'))

/-- A concrete detail view with full, parseable fields, used to evaluate
the model on concrete runs. -/
def demoView (nm : List Char) : ListingView :=
  { ariaLabel := some nm
    addressText := some "1 Main St".data
    websiteText := none
    phoneText := none
    reviewsSpan := none
    ratingImg := none
    url := "maps/place/@1.5,2.5,15z".data }

/-- A concrete per-listing activation outcome: three listings that load
fine, except that listing 2's detail view makes the rating-image read
raise (`aria-label` is `None`), so its extraction fails. -/
def demoClick (i : ℕ) : Except PyErr ListingView :=
  if i = 2 then .ok { demoView "b2".data with ratingImg := some none }
  else .ok (demoView (if i = 1 then "b1".data else "b3".data))

/-- The record scraped from `demoView "Cafe"`. -/
def demoBusiness : Business :=
  { name := "Cafe".data
    address := "1 Main St".data
    website := []
    phone_number := []
    reviews_count := none
    reviews_average := none
    latitude := some (mkRat 3 2)
    longitude := some (mkRat 5 2) }

/-- A concrete two-query batch: query 0's setup (the `page.hover` over
the first result) raises, query 1 would succeed and produce one record. -/
def demoQuerySpec (q : ℕ) : QueryRun :=
  if q = 0 then
    { setup := .error .timeoutError
      parent := fun i => i
      total := 1000000
      counts := []
      click := fun _ => .error .timeoutError
      save := .ok () }
  else
    { setup := .ok ()
      parent := fun i => i
      total := 1000000
      counts := [1, 1]
      click := fun _ => .ok (demoView "Cafe".data)
      save := .ok () }

/-- A concrete detail view whose address region's text has surrounding
whitespace. -/
def demoPaddedView : ListingView :=
  { ariaLabel := some "Cafe".data
    addressText := some " 1 Main St ".data
    websiteText := none
    phoneText := none
    reviewsSpan := none
    ratingImg := none
    url := "maps/place/@1.5,2.5,15z".data }

/-- The record scraped from `demoPaddedView`: the address keeps its
surrounding whitespace. -/
def demoPaddedBusiness : Business :=
  { name := "Cafe".data
    address := " 1 Main St ".data
    website := []
    phone_number := []
    reviews_count := none
    reviews_average := none
    latitude := some (mkRat 3 2)
    longitude := some (mkRat 5 2) }

theorem splitMarker_eq_pos (cs : List Char) :
    splitMarker ('/' :: '@' :: cs) = [] :: splitMarker cs := by
  simp [splitMarker]

theorem splitMarker_eq_neg (c d : Char) (cs : List Char) (h : ¬(c = '/' ∧ d = '@')) :
    splitMarker (c :: d :: cs) =
      match splitMarker (d :: cs) with
      | [] => [[c]]
      | h :: t => (c :: h) :: t := by
  rw [splitMarker, if_neg h]

theorem splitMarker_ne_nil (l : List Char) : splitMarker l ≠ [] := by
  induction l using splitMarker.induct with
  | case1 => simp [splitMarker]
  | case2 c => simp [splitMarker]
  | case3 c d cs h ih =>
    obtain ⟨hc, hd⟩ := h
    subst hc; subst hd
    simp [splitMarker_eq_pos]
  | case4 c d cs h he ih => rw [splitMarker_eq_neg c d cs h, he]; simp
  | case5 c d cs h h0 t he ih => rw [splitMarker_eq_neg c d cs h, he]; simp

theorem splitMarker_append (a b : List Char) :
    splitMarker (a ++ '/' :: '@' :: b) = splitMarker a ++ splitMarker b := by
  induction a using splitMarker.induct with
  | case1 =>
    rw [List.nil_append, splitMarker_eq_pos]
    simp [splitMarker]
  | case2 c =>
    have h : ¬(c = '/' ∧ '/' = '@') := by simp
    have h2 : [c] ++ '/' :: '@' :: b = c :: '/' :: '@' :: b := by simp
    rw [h2, splitMarker_eq_neg c '/' ('@' :: b) h, splitMarker_eq_pos b]
    simp [splitMarker]
  | case3 c d cs h ih =>
    obtain ⟨hc, hd⟩ := h
    subst hc; subst hd
    have h2 : ('/' :: '@' :: cs) ++ '/' :: '@' :: b = '/' :: '@' :: (cs ++ '/' :: '@' :: b) := by
      simp
    rw [h2, splitMarker_eq_pos, splitMarker_eq_pos, ih]
    simp
  | case4 c d cs h he ih =>
    exact absurd he (splitMarker_ne_nil _)
  | case5 c d cs h h0 t he ih =>
    have h2 : (c :: d :: cs) ++ '/' :: '@' :: b = c :: ((d :: cs) ++ '/' :: '@' :: b) := by
      simp
    have h3 : (d :: cs) ++ '/' :: '@' :: b = d :: (cs ++ '/' :: '@' :: b) := by simp
    rw [h2, h3, splitMarker_eq_neg c d (cs ++ '/' :: '@' :: b) h, ← h3, ih, he,
      splitMarker_eq_neg c d cs h, he]
    cases t <;> simp

theorem splitMarker_of_no_marker (l : List Char) (h : hasMarker l = false) :
    splitMarker l = [l] := by
  induction l using splitMarker.induct with
  | case1 => simp [splitMarker]
  | case2 c => simp [splitMarker]
  | case3 c d cs hcd ih =>
    obtain ⟨hc, hd⟩ := hcd
    subst hc; subst hd
    simp [hasMarker] at h
  | case4 c d cs hcd he ih =>
    exact absurd he (splitMarker_ne_nil _)
  | case5 c d cs hcd h0 t he ih =>
    simp only [hasMarker, Bool.or_eq_false_iff] at h
    have hl : splitMarker (d :: cs) = [d :: cs] := ih h.2
    rw [splitMarker_eq_neg c d cs hcd, hl]

theorem hasMarker_append_of_no_slash (x y : List Char)
    (hx : x.all (fun c => !(c = '/')) = true) :
    hasMarker (x ++ y) = hasMarker y := by
  induction x with
  | nil => simp
  | cons c x' ih =>
    simp only [List.all_cons, Bool.and_eq_true, Bool.not_eq_true', decide_eq_false_iff_not] at hx
    have ih' := ih (by
      simp only [List.all_eq_true]
      intro a ha
      have := hx.2
      simp only [List.all_eq_true] at this
      exact this a ha)
    cases hxy : x' ++ y with
    | nil =>
      obtain ⟨hx', hy⟩ := List.append_eq_nil.mp hxy
      subst hy
      subst hx'
      simp [hasMarker]
    | cons d cs =>
      have heq : hasMarker (c :: d :: cs) = ((decide (c = '/') && decide (d = '@')) || hasMarker (d :: cs)) := by
        simp [hasMarker]
      rw [List.cons_append, hxy, heq, ← hxy, ih']
      simp [hx.1]

theorem takeWhile_append_all {α : Type} (p : α → Bool) (x y : List α)
    (hx : x.all p = true) :
    (x ++ y).takeWhile p = x ++ y.takeWhile p := by
  induction x with
  | nil => simp
  | cons c x' ih =>
    simp only [List.all_cons, Bool.and_eq_true] at hx
    simp [List.takeWhile_cons, hx.1, ih hx.2]

theorem splitChar_ne_nil (sep : Char) (l : List Char) : splitChar sep l ≠ [] := by
  induction l with
  | nil => simp [splitChar]
  | cons c cs ih =>
    by_cases h : c = sep
    · simp [splitChar, h]
    · simp only [splitChar, h, if_false]
      cases hsc : splitChar sep cs with
      | nil => simp
      | cons h0 t => simp

theorem splitChar_headD (sep : Char) (l : List Char) :
    (splitChar sep l).headD [] = l.takeWhile (fun c => !(c = sep)) := by
  induction l with
  | nil => simp [splitChar]
  | cons c cs ih =>
    by_cases h : c = sep
    · simp [splitChar, h, List.takeWhile_cons]
    · simp only [splitChar, h, if_false]
      cases hsc : splitChar sep cs with
      | nil => exact absurd hsc (splitChar_ne_nil _ _)
      | cons h0 t =>
        rw [hsc] at ih
        simp only [List.headD_cons] at ih
        simp [List.takeWhile_cons, h, ← ih]

theorem splitChar_append_all (sep : Char) (x y : List Char)
    (hx : x.all (fun c => !(c = sep)) = true) :
    splitChar sep (x ++ sep :: y) = x :: splitChar sep y := by
  induction x with
  | nil => simp [splitChar]
  | cons c x' ih =>
    simp only [List.all_cons, Bool.and_eq_true, Bool.not_eq_true', decide_eq_false_iff_not] at hx
    have ih' := ih (by
      simp only [List.all_eq_true]
      intro a ha
      have := hx.2
      simp only [List.all_eq_true] at this
      exact this a ha)
    simp only [List.cons_append, splitChar, hx.1, if_false, List.append_eq, ih']

theorem collectBusinesses_eq_filterMap (click : ℕ → Except PyErr ListingView)
    (l : List ℕ) :
    collectBusinesses click l =
      l.filterMap (fun i => ((click i).bind scrapeListing).toOption) := by
  induction l with
  | nil => rfl
  | cons i rest ih =>
    simp only [collectBusinesses, List.filterMap_cons]
    cases h : (click i).bind scrapeListing with
    | ok b => simp [h, Except.toOption, ih]
    | error e => simp [h, Except.toOption, ih]

theorem mem_collectBusinesses (click : ℕ → Except PyErr ListingView)
    (l : List ℕ) (b : Business) (hb : b ∈ collectBusinesses click l) :
    ∃ i ∈ l, (click i).bind scrapeListing = .ok b := by
  rw [collectBusinesses_eq_filterMap] at hb
  obtain ⟨i, hi, hf⟩ := List.mem_filterMap.mp hb
  refine ⟨i, hi, ?_⟩
  cases h : (click i).bind scrapeListing with
  | ok b' => rw [h] at hf; simp [Except.toOption] at hf; rw [hf]
  | error e => rw [h] at hf; simp [Except.toOption] at hf

theorem scrapeListing_ok_spec (v : ListingView) (b : Business)
    (h : scrapeListing v = .ok b) :
    b.name = pyOrStr v.ariaLabel ∧
    b.address = pyOrStr v.addressText ∧
    b.website = pyOrStr v.websiteText ∧
    b.phone_number = pyOrStr v.phoneText ∧
    (∃ rc, extractReviewsCount v.reviewsSpan = .ok rc ∧ b.reviews_count = rc) ∧
    (∃ ra, extractReviewsAverage v.ratingImg = .ok ra ∧ b.reviews_average = ra) ∧
    (∃ c : ℚ × ℚ, extract_coordinates_from_url v.url = .ok c ∧
      b.latitude = some c.1 ∧ b.longitude = some c.2) := by
  unfold scrapeListing at h
  cases hrc : extractReviewsCount v.reviewsSpan with
  | error e => rw [hrc] at h; simp [Bind.bind, Except.bind] at h
  | ok rc =>
    rw [hrc] at h
    cases hra : extractReviewsAverage v.ratingImg with
    | error e => rw [hra] at h; simp [Bind.bind, Except.bind] at h
    | ok ra =>
      rw [hra] at h
      cases hc : extract_coordinates_from_url v.url with
      | error e => rw [hc] at h; simp [Bind.bind, Except.bind] at h
      | ok c =>
        rw [hc] at h
        simp only [Bind.bind, Except.bind, Except.ok.injEq, Pure.pure, Except.pure] at h
        subst h
        exact ⟨rfl, rfl, rfl, rfl, ⟨rc, rfl, rfl⟩, ⟨ra, rfl, rfl⟩, ⟨c, rfl, rfl, rfl⟩⟩

theorem scrapeListing_ok_of_parts (v : ListingView)
    (hrc : ∃ rc, extractReviewsCount v.reviewsSpan = .ok rc)
    (hra : ∃ ra, extractReviewsAverage v.ratingImg = .ok ra)
    (hc : ∃ c, extract_coordinates_from_url v.url = .ok c) :
    ∃ b, scrapeListing v = .ok b := by
  obtain ⟨rc, hrc⟩ := hrc
  obtain ⟨ra, hra⟩ := hra
  obtain ⟨c, hc⟩ := hc
  unfold scrapeListing
  rw [hrc, hra]
  simp only [Bind.bind, Except.bind, hc, Pure.pure, Except.pure]
  exact ⟨_, rfl⟩

theorem cleanTok_no_comma (t : List Char) (h : cleanTok t = true) :
    t.all (fun c => !(c = ',')) = true := by
  simp only [cleanTok, List.all_eq_true, Bool.and_eq_true] at h ⊢
  intro c hc
  exact (h c hc).1

theorem cleanTok_no_slash (t : List Char) (h : cleanTok t = true) :
    t.all (fun c => !(c = '/')) = true := by
  simp only [cleanTok, List.all_eq_true, Bool.and_eq_true] at h ⊢
  intro c hc
  exact (h c hc).2

theorem hasMarker_cons_comma (y : List Char) : hasMarker (',' :: y) = hasMarker y := by
  cases y with
  | nil => simp [hasMarker]
  | cons d cs => simp [hasMarker]

theorem tail_no_marker (lat lng rest : List Char) (h1 : cleanTok lat = true)
    (h2 : cleanTok lng = true) (h3 : hasMarker rest = false) :
    hasMarker (lat ++ ',' :: (lng ++ ',' :: rest)) = false := by
  rw [hasMarker_append_of_no_slash lat _ (cleanTok_no_slash lat h1), hasMarker_cons_comma,
    hasMarker_append_of_no_slash lng _ (cleanTok_no_slash lng h2), hasMarker_cons_comma, h3]

theorem coordSegment_append_marker (a b : List Char) (hb : hasMarker b = false) :
    coordSegment (a ++ '/' :: '@' :: b) = b.takeWhile (fun c => !(c = '/')) := by
  unfold coordSegment
  rw [splitMarker_append, splitMarker_of_no_marker b hb, List.getLastD_concat, splitChar_headD]

/-- C1: the Listing Discovery Loop reaches `Done` exactly under the two
conditions on the observed count sequence: when the re-counted number of
entries reaches or exceeds the target it returns the enumerated entries
truncated to exactly the target, each resolved to its enclosing
container (`parent`); when the count equals the previous iteration's
count it returns all currently enumerated entries as-is; otherwise it
keeps scanning.  Count sequence 3, 7, 7 with target 20 yields exactly 7
entries, and 5, 12, 25 with target 20 yields exactly 20. -/
theorem discovery_loop_termination_behavior :
    (∀ (parent : ℕ → ℕ) (total : ℤ) (count prev : ℕ) (rest : List ℕ),
      (total ≤ (count : ℤ) →
        scrapeLoop parent total (count :: rest) prev =
          some ((pySlice total (List.range count)).map parent)) ∧
      ((count : ℤ) < total → count = prev →
        scrapeLoop parent total (count :: rest) prev = some (List.range count)) ∧
      ((count : ℤ) < total → count ≠ prev →
        scrapeLoop parent total (count :: rest) prev = scrapeLoop parent total rest count)) ∧
    (∀ (parent : ℕ → ℕ) (total : ℤ) (count : ℕ), 0 ≤ total → total ≤ (count : ℤ) →
      ((pySlice total (List.range count)).map parent).length = total.toNat) ∧
    (∀ parent : ℕ → ℕ, (scrapeLoop parent 20 [3, 7, 7] 0).map List.length = some 7) ∧
    (∀ parent : ℕ → ℕ, (scrapeLoop parent 20 [5, 12, 25] 0).map List.length = some 20) := by
  refine ⟨?_, ?_, ?_, ?_⟩
  · intro parent total count prev rest
    refine ⟨?_, ?_, ?_⟩
    · intro h
      simp only [scrapeLoop, if_pos h]
    · intro h1 h2
      simp only [scrapeLoop, if_neg (not_le.mpr h1), if_pos h2]
    · intro h1 h2
      simp only [scrapeLoop, if_neg (not_le.mpr h1), if_neg h2]
  · intro parent total count h0 hc
    simp only [pySlice, if_pos h0, List.length_map, List.length_take, List.length_range]
    omega
  · intro parent
    simp [scrapeLoop, pySlice]
  · intro parent
    simp [scrapeLoop, pySlice]

/-- C1 witness: the target-reached step at count 25, target 20. -/
theorem discovery_loop_termination_behavior_witness :
    scrapeLoop (fun i => i) 20 [25] 12 =
      some ((pySlice 20 (List.range 25)).map (fun i => i)) :=
  (discovery_loop_termination_behavior.1 (fun i => i) 20 25 12 []).1 (by decide)

/-- C2: the Record Collector catches any failure raised while
activating, extracting from, or coordinate-parsing one entry and skips
only that entry; the batch is exactly the successfully-extracted records
in discovery order.  Concretely, for entries 1, 2, 3 where entry 2's
extraction raises, the batch holds exactly the records of entries 1 and
3, in that order. -/
theorem record_collector_failure_isolation :
    (∀ (click : ℕ → Except PyErr ListingView) (l : List ℕ),
      collectBusinesses click l =
        l.filterMap (fun i => ((click i).bind scrapeListing).toOption)) ∧
    (∀ (click : ℕ → Except PyErr ListingView) (i : ℕ) (e : PyErr),
      (click i).bind scrapeListing = .error e →
      ∀ l1 l2, collectBusinesses click (l1 ++ i :: l2) =
        collectBusinesses click l1 ++ collectBusinesses click l2) ∧
    (collectBusinesses demoClick [1, 2, 3]).map Business.name = ["b1".data, "b3".data] ∧
    (collectBusinesses demoClick [1, 2, 3]).length = 2 ∧
    (demoClick 2).bind scrapeListing = .error .attributeError := by
  refine ⟨collectBusinesses_eq_filterMap, ?_, by decide, by decide, by decide⟩
  intro click i e he l1 l2
  rw [collectBusinesses_eq_filterMap, collectBusinesses_eq_filterMap,
    collectBusinesses_eq_filterMap, List.filterMap_append, List.filterMap_cons]
  simp [he, Except.toOption]

/-- C2 witness: the skip equation applied at the failing entry 2. -/
theorem record_collector_failure_isolation_witness :
    collectBusinesses demoClick ([1] ++ 2 :: [3]) =
      collectBusinesses demoClick [1] ++ collectBusinesses demoClick [3] :=
  record_collector_failure_isolation.2.1 demoClick 2 .attributeError (by decide) [1] [3]

/-- C3 counterexample: the claim says the address field uses the
region's trimmed text; in the code (`main.py` line 136) the text is used
as-is, so a region text with surrounding whitespace is kept verbatim and
differs from its trimmed form. -/
theorem contact_field_not_trimmed_cex :
    Except.map Business.address (scrapeListing demoPaddedView) = .ok " 1 Main St ".data ∧
    pyStrip " 1 Main St ".data = "1 Main St".data ∧
    " 1 Main St ".data ≠ "1 Main St".data := by
  decide

/-- C3 amended: extraction of the address, website and phoneNumber
fields never raises; for each of the three independently, if the region
exists its text content is used as-is (not trimmed), and if the region
is absent or its text is empty the value is the empty string; failure or
absence of one of the three does not affect the others (each field
depends only on its own region, and only the review fields or the
coordinate parse can make a record fail). -/
theorem contact_fields_extraction :
    (∀ v b, scrapeListing v = .ok b →
      b.address = pyOrStr v.addressText ∧
      b.website = pyOrStr v.websiteText ∧
      b.phone_number = pyOrStr v.phoneText) ∧
    (∀ t : List Char, pyOrStr (some t) = t) ∧
    pyOrStr none = [] ∧
    (∀ v : ListingView,
      (∃ rc, extractReviewsCount v.reviewsSpan = .ok rc) →
      (∃ ra, extractReviewsAverage v.ratingImg = .ok ra) →
      (∃ c, extract_coordinates_from_url v.url = .ok c) →
      ∃ b, scrapeListing v = .ok b) := by
  refine ⟨?_, ?_, rfl, scrapeListing_ok_of_parts⟩
  · intro v b h
    obtain ⟨_, ha, hw, hp, _⟩ := scrapeListing_ok_spec v b h
    exact ⟨ha, hw, hp⟩
  · intro t
    by_cases ht : t = []
    · simp [pyOrStr, ht]
    · simp [pyOrStr, ht]

/-- C3 witness: the field equations at the concrete padded view. -/
theorem contact_fields_extraction_witness :
    demoPaddedBusiness.address = pyOrStr demoPaddedView.addressText ∧
    demoPaddedBusiness.website = pyOrStr demoPaddedView.websiteText ∧
    demoPaddedBusiness.phone_number = pyOrStr demoPaddedView.phoneText :=
  contact_fields_extraction.1 demoPaddedView demoPaddedBusiness (by decide)

/-- C8: when the rating-image region exists, `reviewsAverage` takes the
leading whitespace-delimited token of its accessible label, replaces the
comma decimal separator with a period, and parses it as a float; the
label `"4,5 stars"` yields 4.5; when the region is absent the value is
absent. -/
theorem reviews_average_parsing :
    (∀ (lbl tok : List Char) (r : List (List Char)) (q : ℚ),
      pySplitWS lbl = tok :: r → pyFloat (commaToDot tok) = some q →
      extractReviewsAverage (some (some lbl)) = .ok (some q)) ∧
    extractReviewsAverage none = .ok none ∧
    extractReviewsAverage (some (some "4,5 stars".data)) = .ok (some (mkRat 9 2)) ∧
    mkRat 9 2 = (4.5 : ℚ) ∧
    (∀ v b, scrapeListing v = .ok b →
      ∃ ra, extractReviewsAverage v.ratingImg = .ok ra ∧ b.reviews_average = ra) := by
  refine ⟨?_, rfl, by decide, ?_, ?_⟩
  · intro lbl tok r q h1 h2
    simp only [extractReviewsAverage, h1, h2]
  · rw [Rat.mkRat_eq_div]
    norm_num
  · intro v b h
    obtain ⟨_, _, _, _, _, hra, _⟩ := scrapeListing_ok_spec v b h
    exact hra

/-- C8 witness: the parsing equation applied at the label "4,5 stars". -/
theorem reviews_average_parsing_witness :
    extractReviewsAverage (some (some "4,5 stars".data)) = .ok (some (mkRat 9 2)) :=
  reviews_average_parsing.1 "4,5 stars".data "4,5".data ["stars".data] (mkRat 9 2)
    (by decide) (by decide)

/-- C9: in every record the collector produces, latitude and longitude
are either both present or both absent: they are assigned together from
the one coordinate parse of the detail view's URL, and a record only
reaches the batch with both set. -/
theorem lat_lng_assigned_together :
    (∀ v b, scrapeListing v = .ok b →
      ∃ c : ℚ × ℚ, extract_coordinates_from_url v.url = .ok c ∧
        b.latitude = some c.1 ∧ b.longitude = some c.2) ∧
    (∀ (click : ℕ → Except PyErr ListingView) (l : List ℕ) (b : Business),
      b ∈ collectBusinesses click l →
      (b.latitude ≠ none ∧ b.longitude ≠ none) ∨
      (b.latitude = none ∧ b.longitude = none)) := by
  have part1 : ∀ v b, scrapeListing v = .ok b →
      ∃ c : ℚ × ℚ, extract_coordinates_from_url v.url = .ok c ∧
        b.latitude = some c.1 ∧ b.longitude = some c.2 := by
    intro v b h
    obtain ⟨_, _, _, _, _, _, hc⟩ := scrapeListing_ok_spec v b h
    exact hc
  refine ⟨part1, ?_⟩
  intro click l b hb
  obtain ⟨i, _, hok⟩ := mem_collectBusinesses click l b hb
  cases hclick : click i with
  | error e => rw [hclick] at hok; simp [Bind.bind, Except.bind] at hok
  | ok v =>
    rw [hclick] at hok
    simp only [Bind.bind, Except.bind] at hok
    obtain ⟨c, _, hla, hlo⟩ := part1 v b hok
    exact Or.inl ⟨by rw [hla]; simp, by rw [hlo]; simp⟩

/-- C9 witness: the joint assignment at a concrete scraped record. -/
theorem lat_lng_assigned_together_witness :
    ∃ c : ℚ × ℚ, extract_coordinates_from_url (demoView "Cafe".data).url = .ok c ∧
      demoBusiness.latitude = some c.1 ∧ demoBusiness.longitude = some c.2 :=
  lat_lng_assigned_together.1 (demoView "Cafe".data) demoBusiness (by decide)

/-- C4 counterexample: the claim says the parser fails exactly when the
`/@` marker is absent (among other conditions), and in particular that a
URL lacking `/@` fails; but `split('/@')[-1]` falls back to the whole
URL when the marker is absent, so the markerless URL `1.5,2.5` parses
successfully. -/
theorem coordinate_parser_markerless_success_cex :
    hasMarker "1.5,2.5".data = false ∧
    extract_coordinates_from_url "1.5,2.5".data = .ok (mkRat 3 2, mkRat 5 2) ∧
    mkRat 3 2 = (1.5 : ℚ) ∧ mkRat 5 2 = (2.5 : ℚ) := by
  refine ⟨by decide, by decide, ?_, ?_⟩
  · rw [Rat.mkRat_eq_div]; norm_num
  · rw [Rat.mkRat_eq_div]; norm_num

/-- C4 amended: for every URL of the form `prefix/@<lat>,<lng>,<rest>`
where `<lat>` and `<lng>` are valid float literals free of `,` and `/`
and `<rest>` contains no further `/@` marker, the parser returns
`(<lat>, <lng>)` — the pair after the last `/@` when several occur; it
fails exactly when the first comma token of the segment after the last
`/@` (the whole URL when the marker is absent) before the next `/` is
not a valid float, when that segment has no second comma token, or when
the second token is not a valid float; absence of the marker does not by
itself cause failure. -/
theorem coordinate_parser_amended :
    (∀ (p lat lng rest : List Char) (ql qg : ℚ),
      pyFloat lat = some ql → pyFloat lng = some qg →
      cleanTok lat = true → cleanTok lng = true → hasMarker rest = false →
      extract_coordinates_from_url
        (p ++ '/' :: '@' :: (lat ++ ',' :: (lng ++ ',' :: rest))) = .ok (ql, qg)) ∧
    (∀ url : List Char,
      (∃ e, extract_coordinates_from_url url = .error e) ↔
        (pyFloat ((splitChar ',' (coordSegment url)).headD []) = none ∨
         (splitChar ',' (coordSegment url))[1]? = none ∨
         ∃ t, (splitChar ',' (coordSegment url))[1]? = some t ∧ pyFloat t = none)) := by
  constructor
  · intro p lat lng rest ql qg hql hqg hcl hcg hrest
    have hb : hasMarker (lat ++ ',' :: (lng ++ ',' :: rest)) = false :=
      tail_no_marker lat lng rest hcl hcg hrest
    have hseg := coordSegment_append_marker p (lat ++ ',' :: (lng ++ ',' :: rest)) hb
    have ht : (lat ++ ',' :: (lng ++ ',' :: rest)).takeWhile (fun c => !(c = '/')) =
        lat ++ ',' :: (lng ++ ',' :: rest.takeWhile (fun c => !(c = '/'))) := by
      rw [takeWhile_append_all _ lat _ (cleanTok_no_slash lat hcl), List.takeWhile_cons,
        if_pos (by decide), takeWhile_append_all _ lng _ (cleanTok_no_slash lng hcg),
        List.takeWhile_cons, if_pos (by decide)]
    have hsplit : splitChar ',' (lat ++ ',' :: (lng ++ ',' :: rest.takeWhile (fun c => !(c = '/')))) =
        lat :: lng :: splitChar ',' (rest.takeWhile (fun c => !(c = '/'))) := by
      rw [splitChar_append_all ',' lat _ (cleanTok_no_comma lat hcl),
        splitChar_append_all ',' lng _ (cleanTok_no_comma lng hcg)]
    unfold extract_coordinates_from_url
    rw [hseg, ht, hsplit]
    simp only [List.headD_cons, List.getElem?_cons_succ, List.getElem?_cons_zero, hql, hqg]
  · intro url
    cases h0 : pyFloat ((splitChar ',' (coordSegment url)).headD []) with
    | none =>
      refine iff_of_true ⟨.valueError, ?_⟩ (Or.inl rfl)
      simp only [extract_coordinates_from_url, h0]
    | some lat =>
      cases h1 : (splitChar ',' (coordSegment url))[1]? with
      | none =>
        refine iff_of_true ⟨.indexError, ?_⟩ (Or.inr (Or.inl rfl))
        simp only [extract_coordinates_from_url, h0, h1]
      | some t =>
        cases h2 : pyFloat t with
        | none =>
          refine iff_of_true ⟨.valueError, ?_⟩ (Or.inr (Or.inr ⟨t, rfl, h2⟩))
          simp only [extract_coordinates_from_url, h0, h1, h2]
        | some lng =>
          refine iff_of_false ?_ ?_
          · rintro ⟨e, he⟩
            simp only [extract_coordinates_from_url, h0, h1, h2] at he
            exact Except.noConfusion he
          · rintro (hx | hx | ⟨t', ht', hx⟩)
            · exact Option.noConfusion hx
            · exact Option.noConfusion hx
            · injection ht' with h
              subst h
              rw [h2] at hx
              exact Option.noConfusion hx

/-- C4 witness: the positive direction at `https:/@12.34,-56.78,15z/x`. -/
theorem coordinate_parser_amended_witness :
    extract_coordinates_from_url
      ("https:".data ++ '/' :: '@' :: ("12.34".data ++ ',' :: ("-56.78".data ++ ',' :: "15z/x".data))) =
      .ok (mkRat 1234 100, mkRat (-5678) 100) :=
  coordinate_parser_amended.1 "https:".data "12.34".data "-56.78".data "15z/x".data
    (mkRat 1234 100) (mkRat (-5678) 100) (by decide) (by decide) (by decide) (by decide) (by decide)

/-- C5 counterexample: for a URL with two `/@` markers the parser
returns the pair following the last occurrence (3.5, 4.5), not the pair
following the first occurrence (1.0, 2.0) as the claim states. -/
theorem coordinate_parser_first_marker_cex :
    extract_coordinates_from_url "x/@1.0,2.0,y/@3.5,4.5,z".data = .ok (mkRat 7 2, mkRat 9 2) ∧
    ¬ extract_coordinates_from_url "x/@1.0,2.0,y/@3.5,4.5,z".data = .ok (1, 2) := by
  decide

/-- C5 amended: the parser locates the segment following the LAST
occurrence of `/@` (the whole URL when the marker is absent), takes the
portion before the next path separator, splits it on commas and parses
the first two tokens as floats; hence for a URL with several `/@`
markers the result is determined by (and equal to the parse of) the text
after the last occurrence. -/
theorem coordinate_parser_last_marker :
    (∀ a b : List Char, hasMarker b = false →
      extract_coordinates_from_url (a ++ '/' :: '@' :: b) =
        extract_coordinates_from_url ('/' :: '@' :: b)) ∧
    (∀ url : List Char, coordSegment url =
      ((splitMarker url).getLastD []).takeWhile (fun c => !(c = '/'))) ∧
    extract_coordinates_from_url "x/@1.0,2.0,y/@3.5,4.5,z".data = .ok (mkRat 7 2, mkRat 9 2) := by
  refine ⟨?_, ?_, by decide⟩
  · intro a b hb
    have h1 := coordSegment_append_marker a b hb
    have h2 := coordSegment_append_marker [] b hb
    rw [List.nil_append] at h2
    unfold extract_coordinates_from_url
    rw [h1, h2]
  · intro url
    unfold coordSegment
    rw [splitChar_headD]

/-- C5 witness: last-occurrence locality applied at a two-marker URL. -/
theorem coordinate_parser_last_marker_witness :
    extract_coordinates_from_url ("x/@1.0,2.0,y".data ++ '/' :: '@' :: "3.5,4.5,z".data) =
      extract_coordinates_from_url ('/' :: '@' :: "3.5,4.5,z".data) :=
  coordinate_parser_last_marker.1 "x/@1.0,2.0,y".data "3.5,4.5,z".data (by decide)

/-- C6 counterexample: the per-query loop has no failure handling, so a
failure in the first query's processing (here its `page.hover` raising)
ends the loop and the second query — which on its own would produce one
record — is never processed. -/
theorem query_batch_not_isolated_cex :
    runQueries demoQuerySpec [0, 1] = .aborted .timeoutError [] ∧
    runQueries demoQuerySpec [1] = .finished [[demoBusiness]] := by
  decide

/-- C6 amended: a failure raised while processing one entry within a
query is caught and does not prevent the rest of that query or the
subsequent queries (when every query's own setup, discovery and save
succeed, all queries are processed, whatever the per-entry outcomes);
but a failure raised in a query's processing outside the per-entry
handler aborts the loop and prevents all subsequent queries. -/
theorem query_batch_isolation_amended :
    (∀ (spec : ℕ → QueryRun) (qs : List ℕ),
      (∀ q ∈ qs, ∃ bs, runQuery (spec q) = some (.ok bs)) →
      ∃ out, runQueries spec qs = .finished out ∧ out.length = qs.length) ∧
    (∀ r : QueryRun, r.setup = .ok () → r.save = .ok () →
      ∀ ls, scrapeLoop r.parent r.total r.counts 0 = some ls →
      runQuery r = some (.ok (collectBusinesses r.click ls))) ∧
    (∀ (spec : ℕ → QueryRun) (q : ℕ) (rest : List ℕ) (e : PyErr),
      runQuery (spec q) = some (.error e) →
      runQueries spec (q :: rest) = .aborted e []) := by
  refine ⟨?_, ?_, ?_⟩
  · intro spec qs h
    induction qs with
    | nil => exact ⟨[], rfl, rfl⟩
    | cons q rest ih =>
      obtain ⟨bs, hq⟩ := h q (List.mem_cons_self q rest)
      obtain ⟨out, hout, hlen⟩ := ih (fun x hx => h x (List.mem_cons_of_mem q hx))
      refine ⟨bs :: out, ?_, by simp [hlen]⟩
      simp only [runQueries, hq, hout]
  · intro r hs hv ls hl
    simp only [runQuery, hs, hl, hv]
  · intro spec q rest e h
    simp only [runQueries, h]

/-- C6 witness: abort propagation applied at the concrete failing
query batch. -/
theorem query_batch_isolation_amended_witness :
    runQueries demoQuerySpec (0 :: [1]) = .aborted .timeoutError [] :=
  query_batch_isolation_amended.2.2 demoQuerySpec 0 [1] .timeoutError (by decide)

/-- C7 counterexample: with no `-s` argument and no `input.txt`, the
program prints the error message and exits, but `sys.exit()` is called
with no argument, so the exit status is 0, not non-zero. -/
theorem missing_query_exit_code_cex :
    exitCode (startup none none none) = some 0 := by
  decide

/-- C7 amended: when neither a query argument is supplied nor any query
lines are available from `input.txt`, the program prints the error
message and terminates immediately, before any browser work begins, but
with exit status 0 (`sys.exit()` with no argument), not a non-zero
status; and it exits early in exactly these cases. -/
theorem missing_query_exit_behavior :
    (∀ (s : Option (List Char)) (t : Option ℤ) (f : Option (List (List Char))),
      pyTruthyStr s = false → (f = none ∨ f = some []) →
      startup s t f = .exited mainErrorMsg 0) ∧
    (∀ s t f m c, startup s t f = .exited m c →
      m = mainErrorMsg ∧ c = 0 ∧ pyTruthyStr s = false ∧ (f = none ∨ f = some [])) := by
  constructor
  · intro s t f hs hf
    rcases hf with rfl | rfl <;> simp [startup, hs]
  · intro s t f m c h
    by_cases hts : pyTruthyStr s = true
    · simp [startup, hts] at h
    · rw [Bool.not_eq_true] at hts
      cases f with
      | none =>
        have h2 : startup s t none = .exited mainErrorMsg 0 := by simp [startup, hts]
        rw [h2] at h
        injection h with hm hc
        exact ⟨hm.symm, hc.symm, hts, Or.inl rfl⟩
      | some lines =>
        cases lines with
        | nil =>
          have h2 : startup s t (some []) = .exited mainErrorMsg 0 := by simp [startup, hts]
          rw [h2] at h
          injection h with hm hc
          exact ⟨hm.symm, hc.symm, hts, Or.inr rfl⟩
        | cons q qs =>
          have h2 : startup s t (some (q :: qs)) = .scrape (q :: qs) (effectiveTotal t) := by
            simp [startup, hts]
          rw [h2] at h
          exact StartupResult.noConfusion h

/-- C7 witness: the exit behaviour at the concrete empty input. -/
theorem missing_query_exit_behavior_witness :
    startup none none none = .exited mainErrorMsg 0 :=
  missing_query_exit_behavior.1 none none none (by decide) (Or.inl rfl)

/-- C10: a result-cap argument of 0 is falsy, so the default 1,000,000
is substituted exactly as when no cap is given: the substitution tests
the value's truthiness, not whether the argument was supplied, and a cap
of 0 behaves identically to no cap at all. -/
theorem zero_cap_defaults_to_unbounded :
    effectiveTotal (some 0) = 1000000 ∧
    effectiveTotal none = 1000000 ∧
    (∀ s f, startup s (some 0) f = startup s none f) ∧
    (∀ n : ℤ, ¬n = 0 → effectiveTotal (some n) = n) := by
  refine ⟨rfl, rfl, ?_, ?_⟩
  · intro s f
    rfl
  · intro n h
    simp [effectiveTotal, pyTruthyInt, h]

/-- C10 witness: a truthy cap is kept as supplied. -/
theorem zero_cap_defaults_to_unbounded_witness :
    effectiveTotal (some 7) = 7 :=
  zero_cap_defaults_to_unbounded.2.2.2 7 (by decide)
